import Mathlib

/-!
Shallow embedding of `src/backend/route_analyzer.py` (Acadia Transit Sentinel).

External collaborators are modelled as oracles:
* the OSM graph provider (`ox.nearest_nodes` / `nx.shortest_path_length`) as a
  pair of functions `nearest : Coordinate → ℕ` and `spl : ℕ → ℕ → Option ℚ`
  (`none` models `nx.NetworkXNoPath`);
* the CBC solver behind `prob.solve` as a value assignment
  `sol : ℕ → ℕ → Option ℚ` giving `pulp.value(x[i, j])` (`none` models an
  unset variable value);
* the Valhalla HTTP routing service as
  `route_api : List Coordinate → Option TripResponse` (`none` models a
  `requests.RequestException`, which the code re-raises as `RuntimeError`).

Python floats are modelled as ℚ; `float("inf")` by the `Cost.inf` sentinel.
Python exceptions are modelled with `Except PyErr`; `PyErr.keyError` and
`PyErr.indexError` stand for the built-in `KeyError` / `IndexError`, while
`PyErr.runtimeError` stands for the `RuntimeError` raised by
`get_safe_route` (the only exception `analyze_routes` catches).
-/

/-- A longitude/latitude pair (`Coordinate = Tuple[float, float]`). -/
def Coordinate : Type := ℚ × ℚ

/-- An entry of the distance matrix: a finite cost or `float("inf")`. -/
inductive Cost where
  | fin : ℚ → Cost
  | inf : Cost
deriving DecidableEq, Repr

/-- Python exceptions that the embedded code can raise. -/
inductive PyErr where
  | keyError
  | indexError
  | runtimeError
deriving DecidableEq, Repr

/-- `compute_distance_matrix(G, points)`: maps every waypoint to its nearest
graph node, then for every ordered pair `(i, j)` stores `0.0` on the diagonal
and the shortest-path cost otherwise, with `NetworkXNoPath` turned into the
infinite-cost sentinel. -/
def compute_distance_matrix (nearest : Coordinate → ℕ) (spl : ℕ → ℕ → Option ℚ)
    (points : List Coordinate) : List (List Cost) :=
  let nodes := points.map nearest
  (List.range points.length).map fun i =>
    (List.range points.length).map fun j =>
      if i = j then Cost.fin 0
      else
        match spl (nodes.getD i 0) (nodes.getD j 0) with
        | some d => Cost.fin d
        | none => Cost.inf

/-- The inner reconstruction loop `for j in range(n): if pulp.value(x[current, j]) == 1`.
The dict `x` only has keys `(i, j)` with `i ≠ j`, so the dict access
`x[current, j]` raises `KeyError` as soon as the scan reaches `j = current`. -/
def find_next (sol : ℕ → ℕ → Option ℚ) (current : ℕ) :
    List ℕ → Except PyErr (Option ℕ)
  | [] => .ok none
  | j :: js =>
    if j = current then .error .keyError
    else if sol current j = some 1 then .ok (some j)
    else find_next sol current js

/-- The outer reconstruction loop `for _ in range(n)`: each pass scans
`range(n)` for the chosen successor of `current`; on success it appends
`j + 1` to the order and moves `current` to `j`. -/
def build_order (sol : ℕ → ℕ → Option ℚ) (n : ℕ) :
    ℕ → ℕ → List ℕ → Except PyErr (List ℕ)
  | 0, _, order => .ok order
  | k + 1, current, order =>
    match find_next sol current (List.range n) with
    | .error e => .error e
    | .ok none => build_order sol n k current order
    | .ok (some j) => build_order sol n k j (order ++ [j + 1])

/-- `alt[i], alt[i+1] = alt[i+1], alt[i]` on a copy of `order`
(`IndexError` when `i + 1` is out of range). -/
def swap_adjacent (l : List ℕ) (i : ℕ) : Except PyErr (List ℕ) :=
  if i + 1 < l.length then
    .ok ((l.set i (l.getD (i + 1) 0)).set (i + 1) (l.getD i 0))
  else .error .indexError

/-- The alternate-candidate loop `for i in range(1, min(n, 4))`, one adjacent
swap of the optimal order per alternate. -/
def make_alts (order : List ℕ) : List ℕ → Except PyErr (List (List ℕ))
  | [] => .ok []
  | i :: is =>
    match swap_adjacent order i with
    | .error e => .error e
    | .ok alt =>
      match make_alts order is with
      | .error e => .error e
      | .ok rest => .ok (alt :: rest)

/-- `get_top_stop_orders(dist_matrix, num_orders)`.  The LP build and
`prob.solve` have no observable effect on the return value other than through
the variable values, which the oracle `sol` supplies; the constraint system
the code builds is modelled separately by `lp_feasible`.  After solving, the
code reconstructs the order starting from stop `0`, appends the destination
index, and generates adjacent-swap alternates, truncated to `num_orders`. -/
def get_top_stop_orders (dist_matrix : List (List Cost))
    (sol : ℕ → ℕ → Option ℚ) (num_orders : ℕ) :
    Except PyErr (List (List ℕ)) :=
  let n := dist_matrix.length - 2
  match build_order sol n n 0 [0] with
  | .error e => .error e
  | .ok order0 =>
    let order := order0 ++ [dist_matrix.length - 1]
    match make_alts order (List.range' 1 (min n 4 - 1)) with
    | .error e => .error e
    | .ok alts => .ok ((order :: alts).take num_orders)

/-- The constraint system `get_top_stop_orders` hands to the solver:
binary `x[i,j]` for `i ≠ j`, integer `u[i] ∈ [1, n]`, one outgoing and one
incoming chosen edge per stop, and the MTZ inequalities
`u[i] - u[j] + n·x[i,j] ≤ n - 1` for all `i ≠ j`. -/
def lp_feasible (n : ℕ) (xv : ℕ → ℕ → ℚ) (uv : ℕ → ℚ) : Prop :=
  (∀ i < n, ∀ j < n, i ≠ j → xv i j = 0 ∨ xv i j = 1) ∧
  (∀ i < n, 1 ≤ uv i ∧ uv i ≤ (n : ℚ)) ∧
  (∀ i < n, (∑ j ∈ (Finset.range n).erase i, xv i j) = 1) ∧
  (∀ i < n, (∑ j ∈ (Finset.range n).erase i, xv j i) = 1) ∧
  (∀ i < n, ∀ j < n, i ≠ j → uv i - uv j + (n : ℚ) * xv i j ≤ (n : ℚ) - 1)

/-- One maneuver of a Valhalla trip leg; both fields are optional in the
JSON, and the code reads them with `m.get("turn_degree", 0)` and
`m.get("verbal_turn_alert", "")`. -/
structure Maneuver where
  turn_degree : Option ℚ
  verbal_turn_alert : Option (List Char)
deriving DecidableEq

/-- `leg["summary"]` of a Valhalla trip leg. -/
structure Summary where
  length : ℚ
  time : ℚ
deriving DecidableEq

/-- One leg of a Valhalla trip response. -/
structure Leg where
  shape : List Char
  summary : Summary
  maneuvers : List Maneuver
deriving DecidableEq

/-- The parsed body `data["trip"]` of a successful Valhalla response. -/
structure TripResponse where
  legs : List Leg
deriving DecidableEq

/-- The dict returned by `get_safe_route`. -/
structure RouteResult where
  polyline : List Char
  distance : ℚ
  time : ℚ
  risk_score : ℚ
  maneuvers : List Maneuver
deriving DecidableEq

/-- `b.startswith`-style prefix test on character lists; building block for
the Python substring operator `in`. -/
def starts_with : List Char → List Char → Bool
  | [], _ => true
  | _ :: _, [] => false
  | a :: as, b :: bs => a == b && starts_with as bs

/-- The Python substring test `pat in s`: does `pat` occur contiguously
anywhere in `s`? -/
def contains_sub (pat : List Char) : List Char → Bool
  | [] => starts_with pat []
  | c :: rest => starts_with pat (c :: rest) || contains_sub pat rest

/-- The pattern `"left"` searched for in `verbal_turn_alert`. -/
def left_pat : List Char := "left".data

/-- The per-maneuver test in `get_safe_route`'s generator expression:
`m.get("turn_degree", 0) > 90 and "left" in m.get("verbal_turn_alert", "")`. -/
def is_risky_left (m : Maneuver) : Bool :=
  decide ((90 : ℚ) < m.turn_degree.getD 0) &&
    contains_sub left_pat (m.verbal_turn_alert.getD [])

/-- `left_turns = sum(1 for m in leg["maneuvers"] if ...)`. -/
def left_turns (ms : List Maneuver) : ℕ :=
  ms.countP fun m => is_risky_left m

/-- `risk_score = leg["summary"]["length"] + left_turns * 5`. -/
def risk_of (distance : ℚ) (ms : List Maneuver) : ℚ :=
  distance + (left_turns ms : ℚ) * 5

/-- `locations = [{"lon": points[i][0], "lat": points[i][1]} for i in order]`
(`IndexError` when an index is out of range). -/
def get_locations (points : List Coordinate) :
    List ℕ → Except PyErr (List Coordinate)
  | [] => .ok []
  | i :: is =>
    match points[i]? with
    | none => .error .indexError
    | some p =>
      match get_locations points is with
      | .error e => .error e
      | .ok rest => .ok (p :: rest)

/-- `get_safe_route(order, points)`: builds the ordered location list, calls
the routing service (a failed request is re-raised as `RuntimeError`), takes
`data["trip"]["legs"][0]` (`IndexError` on an empty leg list), counts risky
left turns, and assembles the result dict. -/
def get_safe_route (route_api : List Coordinate → Option TripResponse)
    (order : List ℕ) (points : List Coordinate) :
    Except PyErr RouteResult :=
  match get_locations points order with
  | .error e => .error e
  | .ok locations =>
    match route_api locations with
    | none => .error .runtimeError
    | some data =>
      match data.legs with
      | [] => .error .indexError
      | leg :: _ =>
        .ok { polyline := leg.shape
              distance := leg.summary.length
              time := leg.summary.time / 60
              risk_score := risk_of leg.summary.length leg.maneuvers
              maneuvers := leg.maneuvers }

/-- The candidate-evaluation loop of `analyze_routes`: each candidate order
is evaluated once, `except RuntimeError: continue` drops exactly the failing
candidate, and any other exception propagates. -/
def collect_routes (route_api : List Coordinate → Option TripResponse)
    (points : List Coordinate) :
    List (List ℕ) → Except PyErr (List RouteResult)
  | [] => .ok []
  | order :: rest =>
    match get_safe_route route_api order points with
    | .ok r =>
      match collect_routes route_api points rest with
      | .error e => .error e
      | .ok rs => .ok (r :: rs)
    | .error .runtimeError => collect_routes route_api points rest
    | .error e => .error e

/-- `routes.sort(key=lambda r: r["risk_score"])`: Python's stable ascending
sort by risk score, modelled by the stable `List.mergeSort`. -/
def sort_routes (routes : List RouteResult) : List RouteResult :=
  routes.mergeSort fun a b => decide (a.risk_score ≤ b.risk_score)

/-- The tail of `analyze_routes` after the candidate set is known: evaluate
every candidate, sort the survivors by risk score, return the top three. -/
def select_top_routes (route_api : List Coordinate → Option TripResponse)
    (points : List Coordinate) (orders : List (List ℕ)) :
    Except PyErr (List RouteResult) :=
  match collect_routes route_api points orders with
  | .error e => .error e
  | .ok routes => .ok ((sort_routes routes).take 3)

/-- `analyze_routes(origin, destination, stops)`: build the waypoint list,
the distance matrix and the candidate orders, then evaluate, rank and
truncate. -/
def analyze_routes (nearest : Coordinate → ℕ) (spl : ℕ → ℕ → Option ℚ)
    (sol : ℕ → ℕ → Option ℚ)
    (route_api : List Coordinate → Option TripResponse)
    (origin destination : Coordinate) (stops : List Coordinate) :
    Except PyErr (List RouteResult) :=
  let points := origin :: (stops ++ [destination])
  let dist_matrix := compute_distance_matrix nearest spl points
  match get_top_stop_orders dist_matrix sol 5 with
  | .error e => .error e
  | .ok orders => select_top_routes route_api points orders

/-- A concrete 2×2 distance matrix (origin and destination only). -/
def mat2a : List (List Cost) :=
  [[Cost.fin 0, Cost.fin 7], [Cost.fin 8, Cost.fin 0]]

/-- A concrete 3×3 distance matrix (one intermediate stop). -/
def mat3a : List (List Cost) :=
  [[Cost.fin 0, Cost.fin 1, Cost.fin 2],
   [Cost.fin 3, Cost.fin 0, Cost.fin 4],
   [Cost.fin 5, Cost.fin 6, Cost.fin 0]]

/-- A second concrete 2×2 distance matrix. -/
def mat2b : List (List Cost) :=
  [[Cost.fin 0, Cost.fin 3], [Cost.fin 3, Cost.fin 0]]

/-- A second concrete 3×3 distance matrix. -/
def mat3b : List (List Cost) :=
  [[Cost.fin 0, Cost.fin 2, Cost.fin 2],
   [Cost.fin 2, Cost.fin 0, Cost.fin 2],
   [Cost.fin 2, Cost.fin 2, Cost.fin 0]]

/-- A third concrete 3×3 distance matrix. -/
def mat3c : List (List Cost) :=
  [[Cost.fin 0, Cost.fin 1, Cost.fin 1],
   [Cost.fin 1, Cost.fin 0, Cost.fin 1],
   [Cost.fin 1, Cost.fin 1, Cost.fin 0]]

/-- A concrete 4×4 distance matrix (two intermediate stops). -/
def mat4a : List (List Cost) :=
  [[Cost.fin 0, Cost.fin 1, Cost.fin 2, Cost.fin 3],
   [Cost.fin 1, Cost.fin 0, Cost.fin 1, Cost.fin 2],
   [Cost.fin 2, Cost.fin 1, Cost.fin 0, Cost.fin 1],
   [Cost.fin 3, Cost.fin 2, Cost.fin 1, Cost.fin 0]]

/-- Structural decidable equality for `Except`, used to evaluate the embedded
functions on concrete inputs. -/
instance {e a : Type} [DecidableEq e] [DecidableEq a] : DecidableEq (Except e a) := fun x y =>
  match x, y with
  | .ok v, .ok w => if h : v = w then isTrue (by rw [h]) else isFalse (by simp [h])
  | .error v, .error w => if h : v = w then isTrue (by rw [h]) else isFalse (by simp [h])
  | .ok _, .error _ => isFalse (by simp)
  | .error _, .ok _ => isFalse (by simp)

/-- A graph oracle mapping every coordinate to node 0. -/
def nearest0 : Coordinate → ℕ := fun _ => 0

/-- A shortest-path oracle reporting cost 1 between any two nodes. -/
def spl_one : ℕ → ℕ → Option ℚ := fun _ _ => some 1

/-- A routing-service oracle whose every request fails. -/
def api_fail : List Coordinate → Option TripResponse := fun _ => none

/-- Two concrete waypoints. -/
def pts2 : List Coordinate := [((0 : ℚ), (0 : ℚ)), ((1 : ℚ), (1 : ℚ))]

/-- A qualifying left-turn maneuver. -/
def m_left : Maneuver :=
  { turn_degree := some 120, verbal_turn_alert := some ("turn left".data) }

/-- A sharp right turn: same angle, but not a left turn. -/
def m_right : Maneuver :=
  { turn_degree := some 120, verbal_turn_alert := some ("turn right".data) }

/-- A concrete trip leg with one risky left turn. -/
def leg1 : Leg :=
  { shape := ("abc".data)
    summary := { length := 10, time := 120 }
    maneuvers := [m_left, m_right] }

/-- A concrete successful trip response. -/
def trip1 : TripResponse := { legs := [leg1] }

/-- A routing-service oracle that always answers with `trip1`. -/
def api_const : List Coordinate → Option TripResponse := fun _ => some trip1

/-- The route `get_safe_route` assembles from `trip1`. -/
def route_demo : RouteResult :=
  { polyline := ("abc".data)
    distance := 10
    time := 2
    risk_score := 15
    maneuvers := [m_left, m_right] }

/-- A routing-service oracle whose reported length shrinks with the number
of requested locations, giving distinct risk scores per candidate. -/
def api_len : List Coordinate → Option TripResponse := fun locs =>
  some { legs := [{ shape := []
                    summary := { length := match locs with
                                           | [_] => 4
                                           | [_, _] => 3
                                           | [_, _, _] => 2
                                           | _ => 1
                                 time := 60 }
                    maneuvers := [] }] }

/-- Four candidate orders over `pts2`. -/
def orders4 : List (List ℕ) := [[0], [0, 0], [0, 0, 0], [0, 0, 0, 0]]

/-- The route `api_len` yields for a request with `5 - q` locations. -/
def mkR (q : ℚ) : RouteResult :=
  { polyline := [], distance := q, time := 1, risk_score := q, maneuvers := [] }

/-- A solver oracle that leaves every variable value unset. -/
def sol_none : ℕ → ℕ → Option ℚ := fun _ _ => none

lemma find_next_self (sol : ℕ → ℕ → Option ℚ) (k : ℕ) :
    find_next sol 0 (List.range (k + 1)) = .error PyErr.keyError := by
  rw [List.range_succ_eq_map]
  simp [find_next]

lemma crash_of_three_le (sol : ℕ → ℕ → Option ℚ) (m : List (List Cost))
    (h : 3 ≤ m.length) :
    get_top_stop_orders m sol 5 = .error PyErr.keyError := by
  obtain ⟨k, hk⟩ : ∃ k, m.length - 2 = k + 1 := ⟨m.length - 3, by omega⟩
  simp only [get_top_stop_orders, hk, build_order, find_next_self]

lemma trivial_of_two (sol : ℕ → ℕ → Option ℚ) (m : List (List Cost))
    (h : m.length = 2) :
    get_top_stop_orders m sol 5 = .ok [[0, 1]] := by
  simp [get_top_stop_orders, h, build_order, make_alts]

lemma lp_infeasible_one : ¬ ∃ xv uv, lp_feasible 1 xv uv := by
  rintro ⟨xv, uv, -, -, hout, -, -⟩
  have h := hout 0 (by norm_num)
  simp [Finset.range_one] at h

lemma lp_infeasible_two : ¬ ∃ xv uv, lp_feasible 2 xv uv := by
  rintro ⟨xv, uv, -, -, hout, -, hmtz⟩
  have he0 : (Finset.range 2).erase 0 = {1} := by decide
  have he1 : (Finset.range 2).erase 1 = {0} := by decide
  have h01 : xv 0 1 = 1 := by
    have h := hout 0 (by norm_num)
    rwa [he0, Finset.sum_singleton] at h
  have h10 : xv 1 0 = 1 := by
    have h := hout 1 (by norm_num)
    rwa [he1, Finset.sum_singleton] at h
  have m01 := hmtz 0 (by norm_num) 1 (by norm_num) (by norm_num)
  have m10 := hmtz 1 (by norm_num) 0 (by norm_num) (by norm_num)
  rw [h01] at m01
  rw [h10] at m10
  norm_num at m01 m10
  linarith

/-- Claim C1: the claimed Stop Order shape holds only in the stop-free case
`N = 2`, where the single returned order is `[0, 1]`; for every matrix with
`N ≥ 3` the reconstruction loop reads the dict entry `x[current, current]`,
which was never created, so `get_top_stop_orders` raises `KeyError` before
returning any Stop Order — whatever values the solver assigned. -/
theorem c1_stop_order_shape :
    (∀ sol, get_top_stop_orders mat2a sol 5 = .ok [[0, 1]]) ∧
    (∀ (sol : ℕ → ℕ → Option ℚ) (r0 r1 r2 : List Cost) (rest : List (List Cost)),
      get_top_stop_orders (r0 :: r1 :: r2 :: rest) sol 5 = .error PyErr.keyError) := by
  constructor
  · intro sol
    exact trivial_of_two sol mat2a rfl
  · intro sol r0 r1 r2 rest
    apply crash_of_three_le
    simp

/-- Claim C2: with `n = 2` intermediate stops (the 4×4 matrix `mat4a`) the
code returns no candidate list at all: the reconstruction raises `KeyError`
on its first step, for every solver value assignment. -/
theorem c2_candidate_set_crash :
    ∀ sol, get_top_stop_orders mat4a sol 5 = .error PyErr.keyError := by
  intro sol
  exact crash_of_three_le sol mat4a (by decide)

/-- Claim C3: with zero intermediate stops the function does return exactly
the trivial single ordering `[0, 1]`, but with one intermediate stop
(3 waypoints) it raises `KeyError` instead of returning `[[0, 1, 2]]`. -/
theorem c3_trivial_orders :
    (∀ sol, get_top_stop_orders mat2b sol 5 = .ok [[0, 1]]) ∧
    (∀ sol, get_top_stop_orders mat3b sol 5 = .error PyErr.keyError) := by
  constructor
  · intro sol
    exact trivial_of_two sol mat2b rfl
  · intro sol
    exact crash_of_three_le sol mat3b (by decide)

/-- Claim C8: the constraint system the code hands to the solver is
infeasible whenever there is at least one intermediate stop (shown here for
`n = 1` and `n = 2`), and in that situation `get_top_stop_orders` does not
raise any `OptimizationError` — no such check or exception exists — but
crashes with `KeyError` during reconstruction. -/
theorem c8_solver_failure_handling :
    (¬ ∃ xv uv, lp_feasible 1 xv uv) ∧
    (¬ ∃ xv uv, lp_feasible 2 xv uv) ∧
    (∀ sol, get_top_stop_orders mat3c sol 5 = .error PyErr.keyError) := by
  refine ⟨lp_infeasible_one, lp_infeasible_two, fun sol => ?_⟩
  exact crash_of_three_le sol mat3c (by decide)

lemma starts_with_iff (pat : List Char) :
    ∀ s, starts_with pat s = true ↔ ∃ post, s = pat ++ post := by
  induction pat with
  | nil =>
    intro s
    simp [starts_with]
  | cons a as ih =>
    intro s
    cases s with
    | nil =>
      simp [starts_with]
    | cons b bs =>
      simp only [starts_with, Bool.and_eq_true, beq_iff_eq, ih]
      constructor
      · rintro ⟨rfl, post, rfl⟩
        exact ⟨post, rfl⟩
      · rintro ⟨post, h⟩
        rw [List.cons_append] at h
        obtain ⟨h1, h2⟩ := List.cons.inj h
        exact ⟨h1.symm, post, h2⟩

lemma contains_sub_iff (pat : List Char) :
    ∀ s, contains_sub pat s = true ↔ ∃ pre post, s = pre ++ pat ++ post := by
  intro s
  induction s with
  | nil =>
    simp only [contains_sub, starts_with_iff]
    constructor
    · rintro ⟨post, h⟩
      exact ⟨[], post, by simpa using h⟩
    · rintro ⟨pre, post, h⟩
      obtain ⟨h1, h2⟩ := List.append_eq_nil.mp h.symm
      obtain ⟨h3, h4⟩ := List.append_eq_nil.mp h1
      exact ⟨post, by simp [h4, h2]⟩
  | cons c rest ih =>
    simp only [contains_sub, Bool.or_eq_true, starts_with_iff, ih]
    constructor
    · rintro (⟨post, h⟩ | ⟨pre, post, h⟩)
      · exact ⟨[], post, by simpa using h⟩
      · exact ⟨c :: pre, post, by simp [h]⟩
    · rintro ⟨pre, post, h⟩
      cases pre with
      | nil =>
        exact Or.inl ⟨post, by simpa using h⟩
      | cons p ps =>
        right
        rw [List.cons_append, List.cons_append] at h
        obtain ⟨-, h2⟩ := List.cons.inj h
        exact ⟨ps, post, by simpa using h2⟩

/-- Claim C9: a maneuver counts as a risky left turn exactly when its
`turn_degree` (defaulting to 0 when absent) strictly exceeds 90 and the
string `"left"` occurs contiguously in its `verbal_turn_alert` (defaulting
to the empty string when absent); a maneuver missing either field never
qualifies, and the test is total, so missing fields raise no error. -/
theorem c9_left_turn_test :
    (∀ m : Maneuver, is_risky_left m = true ↔
      ((90 : ℚ) < m.turn_degree.getD 0 ∧
        ∃ pre post, m.verbal_turn_alert.getD [] = pre ++ left_pat ++ post)) ∧
    (∀ m : Maneuver, m.turn_degree = none → is_risky_left m = false) ∧
    (∀ m : Maneuver, m.verbal_turn_alert = none → is_risky_left m = false) := by
  refine ⟨fun m => ?_, fun m h => ?_, fun m h => ?_⟩
  · rw [is_risky_left, Bool.and_eq_true, decide_eq_true_iff, contains_sub_iff]
  · rw [is_risky_left, h]
    norm_num
  · rw [is_risky_left, h]
    simp only [Option.getD_none]
    rw [show contains_sub left_pat [] = false from by decide]
    simp

/-- Claim C4: the risk score produced by `get_safe_route` is
`distance + 5 × (number of risky left turns)`; it is monotone in distance
with the maneuver list held fixed, grows by exactly 5 when one qualifying
maneuver is appended, and is unchanged by a non-qualifying maneuver. -/
theorem c4_risk_score :
    (∀ distance ms, risk_of distance ms = distance + 5 * (left_turns ms : ℚ)) ∧
    (∀ d d' ms, d ≤ d' → risk_of d ms ≤ risk_of d' ms) ∧
    (∀ d ms m, is_risky_left m = true → risk_of d (ms ++ [m]) = risk_of d ms + 5) ∧
    (∀ d ms m, is_risky_left m = false → risk_of d (ms ++ [m]) = risk_of d ms) ∧
    (∀ route_api order points r, get_safe_route route_api order points = .ok r →
      r.risk_score = r.distance + 5 * (left_turns r.maneuvers : ℚ)) := by
  refine ⟨fun distance ms => by rw [risk_of]; ring, fun d d' ms h => ?_, ?_, ?_, ?_⟩
  · simp only [risk_of]
    linarith
  · intro d ms m h
    simp only [risk_of, left_turns, List.countP_append, List.countP_cons,
      List.countP_nil, h]
    push_cast
    ring
  · intro d ms m h
    simp only [risk_of, left_turns, List.countP_append, List.countP_cons,
      List.countP_nil, h]
    push_cast
    ring
  · intro route_api order points r h
    rw [get_safe_route] at h
    split at h
    · exact absurd h (by simp)
    · split at h
      · exact absurd h (by simp)
      · split at h
        · exact absurd h (by simp)
        · obtain ⟨rfl⟩ := Except.ok.inj h
          simp only [risk_of]
          ring

/-- Claim C10: whenever the routing service answers with a trip whose first
leg is `leg`, `get_safe_route` reports `time = summary.time / 60` and passes
the distance, the polyline shape and the maneuver list through unchanged. -/
theorem c10_passthrough (route_api : List Coordinate → Option TripResponse)
    (order : List ℕ) (points : List Coordinate) (locations : List Coordinate)
    (data : TripResponse) (leg : Leg) (rest : List Leg)
    (hloc : get_locations points order = .ok locations)
    (hapi : route_api locations = some data)
    (hlegs : data.legs = leg :: rest) :
    ∃ r, get_safe_route route_api order points = .ok r ∧
      r.time = leg.summary.time / 60 ∧
      r.distance = leg.summary.length ∧
      r.polyline = leg.shape ∧
      r.maneuvers = leg.maneuvers := by
  have hg : get_safe_route route_api order points = .ok
      { polyline := leg.shape
        distance := leg.summary.length
        time := leg.summary.time / 60
        risk_score := risk_of leg.summary.length leg.maneuvers
        maneuvers := leg.maneuvers } := by
    simp only [get_safe_route, hloc, hapi, hlegs]
  exact ⟨_, hg, rfl, rfl, rfl, rfl⟩

lemma risk_le_trans : ∀ a b c : RouteResult,
    decide (a.risk_score ≤ b.risk_score) = true →
    decide (b.risk_score ≤ c.risk_score) = true →
    decide (a.risk_score ≤ c.risk_score) = true := by
  intro a b c hab hbc
  rw [decide_eq_true_iff] at *
  exact le_trans hab hbc

lemma risk_le_total : ∀ a b : RouteResult,
    (decide (a.risk_score ≤ b.risk_score) || decide (b.risk_score ≤ a.risk_score)) = true := by
  intro a b
  simpa using le_total a.risk_score b.risk_score

lemma sort_routes_sorted (l : List RouteResult) :
    (sort_routes l).Pairwise (fun a b => a.risk_score ≤ b.risk_score) := by
  have h := List.sorted_mergeSort risk_le_trans risk_le_total l
  exact h.imp fun hab => by simpa using hab

lemma sort_routes_perm (l : List RouteResult) : List.Perm (sort_routes l) l :=
  List.mergeSort_perm l _

lemma sort_routes_stable (l : List RouteResult) (q : ℚ) :
    (sort_routes l).filter (fun r => decide (r.risk_score = q)) =
      l.filter (fun r => decide (r.risk_score = q)) := by
  have hall : ∀ a ∈ l.filter (fun r => decide (r.risk_score = q)),
      decide (a.risk_score = q) = true := fun a ha => (List.mem_filter.mp ha).2
  have hsub : List.Sublist (l.filter (fun r => decide (r.risk_score = q))) (sort_routes l) := by
    apply List.sublist_mergeSort risk_le_trans risk_le_total
    · apply List.pairwise_of_forall_mem_list
      intro a ha b hb
      have ha' := of_decide_eq_true (hall a ha)
      have hb' := of_decide_eq_true (hall b hb)
      simp [ha', hb']
    · exact List.filter_sublist l
  have h2 := hsub.filter (fun r => decide (r.risk_score = q))
  rw [List.filter_eq_self.mpr hall] at h2
  have hperm := (sort_routes_perm l).filter (fun r => decide (r.risk_score = q))
  exact (h2.eq_of_length hperm.length_eq.symm).symm

/-- Claim C5: whenever more than three candidate evaluations succeed, the
selection stage returns exactly the first three elements of the stable
ascending sort of the successes — three results, sorted by risk score, ties
kept in candidate generation order — and `analyze_routes` never returns more
than three results for any input. -/
theorem c5_top_three :
    (∀ route_api points orders routes,
      collect_routes route_api points orders = .ok routes →
      3 < routes.length →
      ∃ res, select_top_routes route_api points orders = .ok res ∧
        res.length = 3 ∧
        res.Pairwise (fun a b => a.risk_score ≤ b.risk_score) ∧
        res = (sort_routes routes).take 3 ∧
        List.Perm (sort_routes routes) routes ∧
        (∀ q : ℚ, (sort_routes routes).filter (fun r => decide (r.risk_score = q)) =
          routes.filter (fun r => decide (r.risk_score = q)))) ∧
    (∀ nearest spl sol route_api origin destination stops res,
      analyze_routes nearest spl sol route_api origin destination stops = .ok res →
      res.length ≤ 3) := by
  constructor
  · intro route_api points orders routes hc h3
    refine ⟨(sort_routes routes).take 3, ?_, ?_, ?_, rfl, sort_routes_perm routes,
      fun q => sort_routes_stable routes q⟩
    · rw [select_top_routes, hc]
    · have hlen : (sort_routes routes).length = routes.length := by
        simp [sort_routes]
      rw [List.length_take, hlen]
      omega
    · exact List.Pairwise.sublist (List.take_sublist 3 _) (sort_routes_sorted routes)
  · intro nearest spl sol route_api origin destination stops res h
    rw [analyze_routes] at h
    split at h
    · exact absurd h (by simp)
    · rw [select_top_routes] at h
      split at h
      · exact absurd h (by simp)
      · obtain ⟨rfl⟩ := Except.ok.inj h
        rw [List.length_take]
        omega

lemma collect_routes_filterMap (route_api : List Coordinate → Option TripResponse)
    (points : List Coordinate) :
    ∀ orders : List (List ℕ),
      (∀ o ∈ orders, ∀ e, get_safe_route route_api o points = .error e →
        e = PyErr.runtimeError) →
      collect_routes route_api points orders =
        .ok (orders.filterMap fun o => (get_safe_route route_api o points).toOption) := by
  intro orders
  induction orders with
  | nil =>
    intro _
    simp [collect_routes]
  | cons o rest ih =>
    intro h
    have hrest := ih fun o' ho' => h o' (List.mem_cons_of_mem o ho')
    rw [collect_routes]
    rcases hg : get_safe_route route_api o points with e | r
    · have he : e = PyErr.runtimeError := h o (List.mem_cons_self o rest) e hg
      subst he
      rw [hrest, List.filterMap_cons, hg]
      rfl
    · rw [hrest, List.filterMap_cons, hg]
      rfl

/-- Claim C6: when every candidate evaluation fails with the (caught)
routing-service `RuntimeError`, the selection stage returns the empty list
and raises nothing; each individual routing failure drops only that one
candidate — the survivors are exactly the successful evaluations, in order —
and the full pipeline returns an empty `ok` result when the routing service
is down. -/
theorem c6_all_failures_empty :
    (∀ route_api points orders,
      (∀ o ∈ orders, get_safe_route route_api o points = .error PyErr.runtimeError) →
      select_top_routes route_api points orders = .ok []) ∧
    (∀ route_api points orders,
      (∀ o ∈ orders, ∀ e, get_safe_route route_api o points = .error e →
        e = PyErr.runtimeError) →
      collect_routes route_api points orders =
        .ok (orders.filterMap fun o => (get_safe_route route_api o points).toOption)) ∧
    (∀ nearest spl sol route_api origin destination,
      (∀ locs, route_api locs = none) →
      analyze_routes nearest spl sol route_api origin destination [] = .ok []) := by
  refine ⟨?_, collect_routes_filterMap, ?_⟩
  · intro route_api points orders h
    have hc := collect_routes_filterMap route_api points orders
      (fun o ho e he => by rw [h o ho] at he; exact (Except.error.inj he).symm)
    have hnil : (orders.filterMap fun o => (get_safe_route route_api o points).toOption) = [] := by
      rw [List.filterMap_eq_nil_iff]
      intro o ho
      rw [h o ho]
      rfl
    rw [select_top_routes, hc, hnil]
    simp [sort_routes]
  · intro nearest spl sol route_api origin destination h
    have hm : get_top_stop_orders (compute_distance_matrix nearest spl
        [origin, destination]) sol 5 = Except.ok [[0, 1]] :=
      trivial_of_two sol _ (by simp [compute_distance_matrix])
    simp only [analyze_routes, List.nil_append, hm, select_top_routes, collect_routes,
      get_safe_route, get_locations, List.getElem?_cons_zero, List.getElem?_cons_succ, h,
      sort_routes, List.mergeSort_nil, List.take_nil]

lemma cdm_entry (nearest : Coordinate → ℕ) (spl : ℕ → ℕ → Option ℚ)
    (points : List Coordinate) (i j : ℕ)
    (hi : i < points.length) (hj : j < points.length) :
    ((compute_distance_matrix nearest spl points).getD i []).getD j Cost.inf =
      if i = j then Cost.fin 0
      else
        match spl ((points.map nearest).getD i 0) ((points.map nearest).getD j 0) with
        | some d => Cost.fin d
        | none => Cost.inf := by
  rw [compute_distance_matrix]
  simp only [List.getD_eq_getElem?_getD, List.getElem?_map, List.getElem?_range hi,
    List.getElem?_range hj, Option.map_some', Option.getD_some]

/-- Claim C7: for any waypoint list the matrix built by
`compute_distance_matrix` is N×N, its diagonal entries are exactly zero, and
every off-diagonal entry is either the infinite-cost sentinel (when the
shortest-path oracle reports no path, without failing the build) or a
non-negative finite cost, provided the graph oracle only reports
non-negative path costs. -/
theorem c7_matrix_invariants (nearest : Coordinate → ℕ) (spl : ℕ → ℕ → Option ℚ)
    (points : List Coordinate)
    (hspl : ∀ a b d, spl a b = some d → 0 ≤ d) :
    (compute_distance_matrix nearest spl points).length = points.length ∧
    (∀ row ∈ compute_distance_matrix nearest spl points,
      row.length = points.length) ∧
    (∀ i, i < points.length →
      ((compute_distance_matrix nearest spl points).getD i []).getD i Cost.inf =
        Cost.fin 0) ∧
    (∀ i j, i < points.length → j < points.length → i ≠ j →
      ((compute_distance_matrix nearest spl points).getD i []).getD j Cost.inf =
        Cost.inf ∨
      ∃ d, ((compute_distance_matrix nearest spl points).getD i []).getD j Cost.inf =
        Cost.fin d ∧ 0 ≤ d) := by
  refine ⟨by simp [compute_distance_matrix], ?_, ?_, ?_⟩
  · intro row hrow
    rw [compute_distance_matrix] at hrow
    simp only [List.mem_map, List.mem_range] at hrow
    obtain ⟨i, -, rfl⟩ := hrow
    simp
  · intro i hi
    rw [cdm_entry nearest spl points i i hi hi]
    simp
  · intro i j hi hj hij
    rw [cdm_entry nearest spl points i j hi hj, if_neg hij]
    rcases hs : spl ((points.map nearest).getD i 0) ((points.map nearest).getD j 0) with - | d
    · exact Or.inl rfl
    · exact Or.inr ⟨d, rfl, hspl _ _ d hs⟩

/-- Witness for C4 at concrete distances, maneuvers and a concrete
routing-service response. -/
theorem c4_witness :
    risk_of 1 [] ≤ risk_of 2 [] ∧
    risk_of 0 ([] ++ [m_left]) = risk_of 0 [] + 5 ∧
    risk_of 0 ([] ++ [m_right]) = risk_of 0 [] ∧
    route_demo.risk_score = route_demo.distance + 5 * (left_turns route_demo.maneuvers : ℚ) :=
  ⟨c4_risk_score.2.1 1 2 [] (by norm_num),
   c4_risk_score.2.2.1 0 [] m_left (by rfl),
   c4_risk_score.2.2.2.1 0 [] m_right (by rfl),
   c4_risk_score.2.2.2.2 api_const [0, 1] pts2 route_demo (by
     rw [show get_safe_route api_const [0, 1] pts2 = .ok
         { polyline := ("abc".data)
           distance := 10
           time := (120 : ℚ) / 60
           risk_score := risk_of 10 [m_left, m_right]
           maneuvers := [m_left, m_right] } from rfl]
     simp only [route_demo, Except.ok.injEq, RouteResult.mk.injEq, risk_of,
       show left_turns [m_left, m_right] = 1 from rfl]
     norm_num)⟩

/-- Witness for C5: four successful candidates with risk scores 4, 3, 2, 1,
and a full pipeline run returning a single route. -/
theorem c5_witness :
    (∃ res, select_top_routes api_len pts2 orders4 = .ok res ∧
      res.length = 3 ∧
      res.Pairwise (fun a b => a.risk_score ≤ b.risk_score) ∧
      res = (sort_routes [mkR 4, mkR 3, mkR 2, mkR 1]).take 3 ∧
      List.Perm (sort_routes [mkR 4, mkR 3, mkR 2, mkR 1]) [mkR 4, mkR 3, mkR 2, mkR 1] ∧
      (∀ q : ℚ,
        (sort_routes [mkR 4, mkR 3, mkR 2, mkR 1]).filter (fun r => decide (r.risk_score = q)) =
          [mkR 4, mkR 3, mkR 2, mkR 1].filter (fun r => decide (r.risk_score = q)))) ∧
    [mkR 3].length ≤ 3 :=
  ⟨c5_top_three.1 api_len pts2 orders4 [mkR 4, mkR 3, mkR 2, mkR 1]
    (by
      rw [show collect_routes api_len pts2 orders4 = .ok
          [ { polyline := [], distance := 4, time := (60 : ℚ) / 60,
              risk_score := risk_of 4 [], maneuvers := [] },
            { polyline := [], distance := 3, time := (60 : ℚ) / 60,
              risk_score := risk_of 3 [], maneuvers := [] },
            { polyline := [], distance := 2, time := (60 : ℚ) / 60,
              risk_score := risk_of 2 [], maneuvers := [] },
            { polyline := [], distance := 1, time := (60 : ℚ) / 60,
              risk_score := risk_of 1 [], maneuvers := [] } ] from rfl]
      simp only [mkR, Except.ok.injEq, List.cons.injEq, RouteResult.mk.injEq, risk_of,
        left_turns, List.countP_nil]
      norm_num)
    (by decide),
   c5_top_three.2 nearest0 spl_one sol_none api_len ((0 : ℚ), (0 : ℚ)) ((1 : ℚ), (1 : ℚ)) []
     [mkR 3]
     (by
       have hm : get_top_stop_orders (compute_distance_matrix nearest0 spl_one
           [((0 : ℚ), (0 : ℚ)), ((1 : ℚ), (1 : ℚ))]) sol_none 5 = Except.ok [[0, 1]] :=
         trivial_of_two sol_none _ (by simp [compute_distance_matrix])
       simp only [analyze_routes, List.nil_append, hm, select_top_routes]
       rw [show collect_routes api_len [((0 : ℚ), (0 : ℚ)), ((1 : ℚ), (1 : ℚ))] [[0, 1]] = .ok
           [ { polyline := [], distance := 3, time := (60 : ℚ) / 60,
               risk_score := risk_of 3 [], maneuvers := [] } ] from rfl]
       simp only [sort_routes, List.mergeSort_singleton, List.take_succ_cons, List.take_nil,
         mkR, Except.ok.injEq, List.cons.injEq, RouteResult.mk.injEq, risk_of, left_turns,
         List.countP_nil]
       norm_num)⟩

/-- Witness for C6: a routing service that is down for all four candidates,
and a full pipeline run with no intermediate stops. -/
theorem c6_witness :
    select_top_routes api_fail pts2 orders4 = .ok [] ∧
    collect_routes api_fail pts2 orders4 =
      .ok (orders4.filterMap fun o => (get_safe_route api_fail o pts2).toOption) ∧
    analyze_routes nearest0 spl_one sol_none api_fail ((0 : ℚ), (0 : ℚ)) ((1 : ℚ), (1 : ℚ)) [] =
      .ok [] :=
  ⟨c6_all_failures_empty.1 api_fail pts2 orders4 (by decide),
   c6_all_failures_empty.2.1 api_fail pts2 orders4 (by
     intro o ho e he
     have hx := (show ∀ o ∈ orders4,
         get_safe_route api_fail o pts2 = Except.error PyErr.runtimeError from by decide) o ho
     rw [hx] at he
     exact (Except.error.inj he).symm),
   c6_all_failures_empty.2.2 nearest0 spl_one sol_none api_fail _ _ (fun _ => rfl)⟩

/-- Witness for C7 at a concrete two-waypoint list and concrete oracles. -/
theorem c7_witness :
    (compute_distance_matrix nearest0 spl_one pts2).length = pts2.length ∧
    (∀ row ∈ compute_distance_matrix nearest0 spl_one pts2, row.length = pts2.length) ∧
    (∀ i, i < pts2.length →
      ((compute_distance_matrix nearest0 spl_one pts2).getD i []).getD i Cost.inf =
        Cost.fin 0) ∧
    (∀ i j, i < pts2.length → j < pts2.length → i ≠ j →
      ((compute_distance_matrix nearest0 spl_one pts2).getD i []).getD j Cost.inf =
        Cost.inf ∨
      ∃ d, ((compute_distance_matrix nearest0 spl_one pts2).getD i []).getD j Cost.inf =
        Cost.fin d ∧ 0 ≤ d) :=
  c7_matrix_invariants nearest0 spl_one pts2 (fun a b d h => by
    simp only [spl_one] at h
    injection h with h2
    rw [← h2]
    norm_num)

/-- Witness for C9 at maneuvers missing one field each. -/
theorem c9_witness :
    is_risky_left { turn_degree := none, verbal_turn_alert := some left_pat } = false ∧
    is_risky_left { turn_degree := some 100, verbal_turn_alert := none } = false :=
  ⟨c9_left_turn_test.2.1 _ rfl, c9_left_turn_test.2.2 _ rfl⟩

/-- Witness for C10 at a concrete request and response. -/
theorem c10_witness :
    ∃ r, get_safe_route api_const [0, 1] pts2 = .ok r ∧
      r.time = leg1.summary.time / 60 ∧
      r.distance = leg1.summary.length ∧
      r.polyline = leg1.shape ∧
      r.maneuvers = leg1.maneuvers :=
  c10_passthrough api_const [0, 1] pts2 pts2 trip1 leg1 [] rfl rfl rfl
